import Mathlib

/-!
Verification of the GTIN scraper / Shopify uploader pipeline (`app.py`).

The program is a linear pipeline: CSV ingestion → per-row catalog lookup and
scrape → derived selling price → per-row upload to a commerce platform →
CSV export.  All network effects (HTTP fetches of search/detail pages, the
commerce-platform API) are modelled as oracles passed in as explicit
function arguments; the pipeline functions themselves are translated
directly from the source.
-/

/-! ## HTML page models

`fetch_product_link` parses the search response for a
"c-suggest-popular dx_suggest-products" container, then a nested
"c-option suggested-product" link element, and returns its `href`
attribute.  `fetch_product_details` looks for a description container
(id "dx-description-container") and an image container
("dx_product-image__container") with a nested `img` element carrying a
`src` attribute.  We model only the structure those functions inspect. -/

/-- The link element inside the suggestions container; `href` is the
attribute value (`None` when the attribute is missing). -/
structure LinkElem where
  href : Option String
deriving DecidableEq

/-- The "popular suggestions" container of a search response; `linkElem` is
the nested suggested-product link element, when present. -/
structure SuggestContainer where
  linkElem : Option LinkElem
deriving DecidableEq

/-- A parsed search-endpoint response as far as `fetch_product_link`
inspects it. -/
structure SearchPage where
  suggestContainer : Option SuggestContainer
deriving DecidableEq

/-- An `img` element; `src` is its source attribute, when present. -/
structure ImgElem where
  src : Option String
deriving DecidableEq

/-- The product-image container of a detail page, with its nested `img`
element when one exists. -/
structure ImageContainer where
  img : Option ImgElem
deriving DecidableEq

/-- A parsed detail page as far as `fetch_product_details` inspects it:
`descriptionContainer` holds the stripped text of the description
container when that container exists. -/
structure DetailPage where
  descriptionContainer : Option String
  imageContainer : Option ImageContainer
deriving DecidableEq

/-! ## Scraping functions

Network fetching is an oracle `String → Except String α`: `.error msg`
covers a request exception, a non-success HTTP status, or a top-level
parse exception (the code catches all of these, warns, and returns the
absent value); `.ok page` is a successfully fetched and parsed page. -/

/-- `fetch_product_link(gtin)`: query the search endpoint and extract the
suggested product's `href`.  Returns `none` on fetch failure, missing
container, missing link element, or missing/empty (falsy) `href`. -/
def fetch_product_link (sf : String → Except String SearchPage) (gtin : String) :
    Option String :=
  match sf gtin with
  | .error _ => none
  | .ok page =>
    match page.suggestContainer with
    | none => none
    | some container =>
      match container.linkElem with
      | none => none
      | some a =>
        match a.href with
        | some h => if h = "" then none else some h
        | none => none

/-- `fetch_product_details(url)`: fetch the detail page and return
`(description_text, image_url)`.  On fetch/parse failure: `(none, none)`.
On success the description is the container's text, or `""` when the
container is absent; the image URL is the nested `img` element's `src`,
or `none` when the container or the `img` element is absent. -/
def fetch_product_details (dfetch : String → Except String DetailPage) (url : String) :
    Option String × Option String :=
  match dfetch url with
  | .error _ => (none, none)
  | .ok page =>
    let description_text :=
      match page.descriptionContainer with
      | some t => t
      | none => ""
    let image_url :=
      match page.imageContainer with
      | some c =>
        match c.img with
        | some i => i.src
        | none => none
      | none => none
    (some description_text, image_url)

/-! ## Input rows and Phase 1 (scraping) -/

/-- Remove leading and trailing whitespace characters from a character
list. -/
def stripChars (cs : List Char) : List Char :=
  ((cs.dropWhile Char.isWhitespace).reverse.dropWhile Char.isWhitespace).reverse

/-- Python `str.strip()` with no argument: remove leading and trailing
whitespace. -/
def pyStrip (s : String) : String := String.mk (stripChars s.data)

/-- One input row of the uploaded CSV: the six required columns
`GTIN, Name, Brand, Category, € Price inc. shipping, Inventory`.
The sourced cost and the inventory count may be missing (NaN). -/
structure InputRow where
  gtin : String
  name : String
  brand : String
  category : String
  cost : Option ℚ
  inventory : Option Int
deriving DecidableEq

/-- The fixed selling-price multiplier `1.40` of the pricing transform. -/
def markup : ℚ := 140 / 100

/-- A row after Phase 1: the input columns plus the derived
`Link`, `Description`, `Image_URL` and `Selling Price` columns. -/
structure ScrapedRow where
  input : InputRow
  link : Option String
  description : Option String
  imageURL : Option String
  sellingPrice : Option ℚ
deriving DecidableEq

/-- An observable network call made during Phase 1: an invocation of
`fetch_product_link` with its gtin argument, or of
`fetch_product_details` with its url argument. -/
inductive ScrapeCall where
  | lookup (gtin : String)
  | details (url : String)
deriving DecidableEq

/-- Whether a Phase-1 call is a catalog-lookup invocation. -/
def isLookupCall : ScrapeCall → Bool
  | .lookup _ => true
  | .details _ => false

/-- The scrape decision of the Phase-1 loop: `if link: desc, img =
fetch_product_details(link) else: desc, img = None, None` (an empty
string is falsy in Python). -/
def scrapeIfLink (dfetch : String → Except String DetailPage) (link : Option String) :
    Option String × Option String :=
  match link with
  | some l => if l = "" then (none, none) else fetch_product_details dfetch l
  | none => (none, none)

/-- The detail-fetch calls issued by the Phase-1 loop for a given link
value: one call when the link is truthy, none otherwise. -/
def detailCalls (link : Option String) : List ScrapeCall :=
  match link with
  | some l => if l = "" then [] else [.details l]
  | none => []

/-- One iteration of the Phase-1 scraping loop for a row: look up the
stripped gtin, scrape the detail page when a link was found; returns the
`(description, image)` pair together with the calls issued. -/
def scrapeLoopStep (sf : String → Except String SearchPage)
    (dfetch : String → Except String DetailPage) (r : InputRow) :
    (Option String × Option String) × List ScrapeCall :=
  let link := fetch_product_link sf (pyStrip r.gtin)
  (scrapeIfLink dfetch link, .lookup (pyStrip r.gtin) :: detailCalls link)

/-- The Phase-1 output row: description and image from the loop (which
looks up the STRIPPED gtin via `sf1`), the `Link` column from a second,
separate lookup of the UNSTRIPPED gtin (via `sf2`), and the selling
price `cost * 1.40` (missing cost propagates, as `NaN * 1.40` is `NaN`).
`sf1` and `sf2` are the search oracle at the two distinct call times. -/
def phase1RowOut (sf1 sf2 : String → Except String SearchPage)
    (dfetch : String → Except String DetailPage) (r : InputRow) : ScrapedRow :=
  let scraped := scrapeIfLink dfetch (fetch_product_link sf1 (pyStrip r.gtin))
  { input := r
    link := fetch_product_link sf2 r.gtin
    description := scraped.1
    imageURL := scraped.2
    sellingPrice := r.cost.map (fun c => c * markup) }

/-- The post-scrape table: Phase 1 applied to every row in order. -/
def phase1Table (sf1 sf2 : String → Except String SearchPage)
    (dfetch : String → Except String DetailPage) (rows : List InputRow) :
    List ScrapedRow :=
  rows.map (phase1RowOut sf1 sf2 dfetch)

/-- The sequence of network calls Phase 1 issues: the scraping loop runs
over all rows (one lookup of the stripped gtin each, plus a detail fetch
when a link was found), then the `Link` column comprehension looks up
every row's unstripped gtin a second time. -/
def phase1Trace (sf1 : String → Except String SearchPage)
    (dfetch : String → Except String DetailPage) (rows : List InputRow) :
    List ScrapeCall :=
  (rows.map (fun r => (scrapeLoopStep sf1 dfetch r).2)).flatten
    ++ rows.map (fun r => ScrapeCall.lookup r.gtin)

/-- Modelled from the spec (§9, design note): Phase 1 with the two lookup
invocations per row collapsed into a single memoized call, whose result
is used both to decide whether to scrape and to fill the `Link` column. -/
def phase1MemoRowOut (sf : String → Except String SearchPage)
    (dfetch : String → Except String DetailPage) (r : InputRow) : ScrapedRow :=
  let link := fetch_product_link sf (pyStrip r.gtin)
  let scraped := scrapeIfLink dfetch link
  { input := r
    link := link
    description := scraped.1
    imageURL := scraped.2
    sellingPrice := r.cost.map (fun c => c * markup) }

/-- Modelled from the spec: the post-scrape table produced with a single
memoized lookup per row. -/
def phase1Memo (sf : String → Except String SearchPage)
    (dfetch : String → Except String DetailPage) (rows : List InputRow) :
    List ScrapedRow :=
  rows.map (phase1MemoRowOut sf dfetch)

/-! ## Input-file column validation -/

/-- The required input columns. -/
def required_cols : List String :=
  ["GTIN", "Name", "Brand", "Category", "€ Price inc. shipping", "Inventory"]

/-- `[col for col in required_cols if col not in df.columns]`. -/
def missing_cols (columns : List String) : List String :=
  required_cols.filter (fun c => !(columns.contains c))

/-- Outcome of processing an uploaded file: aborted with the list of
missing required columns, or the post-scrape table. -/
inductive ProcessOutcome where
  | aborted (missing : List String)
  | processed (table : List ScrapedRow)
deriving DecidableEq

/-- The file-processing entry: check for missing required columns and
abort listing them before any row is processed; otherwise scrape every
row.  Returns the outcome together with the network calls issued. -/
def process_file (sf1 sf2 : String → Except String SearchPage)
    (dfetch : String → Except String DetailPage)
    (columns : List String) (rows : List InputRow) :
    ProcessOutcome × List ScrapeCall :=
  let missing := missing_cols columns
  if missing = [] then
    (.processed (phase1Table sf1 sf2 dfetch rows), phase1Trace sf1 dfetch rows)
  else
    (.aborted missing, [])

/-! ## Commerce uploader (`upload_product`)

The platform API is an oracle.  Each remote operation either raises (the
Python exception, carrying `str(e)`), is rejected by platform validation,
or succeeds.  `upload_product` also returns the trace of remote calls it
issued; the call alphabet includes product deletion (which the platform
supports) so that the absence of compensating deletions is expressible. -/

/-- The six arguments of `upload_product(name, description, price,
image_url, sku, inventory)` as Phase 2 passes them. -/
structure UploadArgs where
  name : String
  description : String
  price : ℚ
  image_url : String
  sku : String
  inventory : Int
deriving DecidableEq

/-- The remote product record `upload_product` constructs before saving:
title with the fixed `"Test "` prefixed to the name, the scraped
description as body html, active status, one variant carrying price and
sku with inventory tracking enabled, and one image when the image
reference is truthy (non-empty). -/
structure ProductPayload where
  title : String
  body_html : String
  status : String
  variantPrice : ℚ
  variantSku : String
  imageSrc : Option String
deriving DecidableEq

/-- Outcome of `product.save()`: an exception, a validation rejection
(carrying the platform's `errors.full_messages()` rendering), or
acceptance assigning the product id and the variant's inventory item id. -/
inductive SaveOutcome where
  | raised (msg : String)
  | rejected (errs : String)
  | accepted (productId : Nat) (inventoryItemId : Nat)
deriving DecidableEq

/-- Outcome of `shopify.Location.find()`: an exception, or the list of
fulfillment-location ids. -/
inductive LocationsOutcome where
  | raised (msg : String)
  | found (locs : List Nat)
deriving DecidableEq

/-- Outcome of `shopify.InventoryLevel().set(...)`. -/
inductive InvSetOutcome where
  | raised (msg : String)
  | ok
deriving DecidableEq

/-- The commerce-platform oracle: behaviour of save, location lookup and
inventory-level set for one `upload_product` call. -/
structure ShopifyAPI where
  save : ProductPayload → SaveOutcome
  locations : LocationsOutcome
  setInventory : Nat → Nat → Int → InvSetOutcome

/-- An observable remote call of the uploader.  `deleteProduct` is in the
alphabet only to state that no compensating deletion is ever issued. -/
inductive APICall where
  | saveProduct (payload : ProductPayload)
  | findLocations
  | setInventoryLevel (locationId inventoryItemId : Nat) (available : Int)
  | deleteProduct (productId : Nat)
deriving DecidableEq

/-- The payload `upload_product` builds from its arguments (lines 133-149):
`"Test "` title prefix, description as body, active status, one variant
with the price and sku, and an image exactly when `image_url` is truthy. -/
def uploadPayload (a : UploadArgs) : ProductPayload :=
  { title := "Test " ++ a.name
    body_html := a.description
    status := "active"
    variantPrice := a.price
    variantSku := a.sku
    imageSrc := if a.image_url = "" then none else some a.image_url }

/-- `upload_product`, instrumented with the trace of remote calls: save
the product (rejection returns the validation messages, no id); look up
locations (an empty list returns the fixed "No locations found for
inventory." failure); set inventory at the first location; return
success with the product id.  Any exception in the sequence is caught
and returned as `(False, None, str(e))`. -/
def upload_product_run (api : ShopifyAPI) (a : UploadArgs) :
    (Bool × Option Nat × Option String) × List APICall :=
  let payload := uploadPayload a
  match api.save payload with
  | .raised msg => ((false, none, some msg), [.saveProduct payload])
  | .rejected errs => ((false, none, some errs), [.saveProduct payload])
  | .accepted pid invItemId =>
    match api.locations with
    | .raised msg => ((false, none, some msg), [.saveProduct payload, .findLocations])
    | .found [] =>
      ((false, none, some "No locations found for inventory."),
        [.saveProduct payload, .findLocations])
    | .found (loc :: _) =>
      match api.setInventory loc invItemId a.inventory with
      | .raised msg =>
        ((false, none, some msg),
          [.saveProduct payload, .findLocations,
            .setInventoryLevel loc invItemId a.inventory])
      | .ok =>
        ((true, some pid, none),
          [.saveProduct payload, .findLocations,
            .setInventoryLevel loc invItemId a.inventory])

/-- `upload_product(name, description, price, image_url, sku, inventory)
→ (success, product_id, error_message)`. -/
def upload_product (api : ShopifyAPI) (a : UploadArgs) :
    Bool × Option Nat × Option String :=
  (upload_product_run api a).1

/-! ## Phase 2 (upload orchestration) -/

/-- A row after Phase 2: the scraped row plus the `Product ID` and
`Upload Status` columns. -/
structure UploadedRow where
  scraped : ScrapedRow
  productId : Option Nat
  uploadStatus : String
deriving DecidableEq

/-- Column initialisation before the upload loop: `Product ID = None`,
`Upload Status = "Pending"`. -/
def initUploadRow (r : ScrapedRow) : UploadedRow :=
  { scraped := r, productId := none, uploadStatus := "Pending" }

/-- Phase 2's per-row coercions (lines 305-310): missing description and
image become `""`, missing selling price becomes `0.0`, missing
inventory becomes `0`; the sku is the unstripped gtin. -/
def rowArgs (r : ScrapedRow) : UploadArgs :=
  { name := r.input.name
    description := r.description.getD ""
    price := r.sellingPrice.getD 0
    image_url := r.imageURL.getD ""
    sku := r.input.gtin
    inventory := r.input.inventory.getD 0 }

/-- Python f-string formatting of the error value in
`f"Failed: {error}"`: a string formats as itself, `None` as `"None"`. -/
def pyFmt : Option String → String
  | some s => s
  | none => "None"

/-- One iteration of the upload loop (lines 312-321): on success set the
product id and status `"Active"`; on failure set status
`"Failed: <error>"`, leaving the product id as initialised. -/
def uploadStep (api : ShopifyAPI) (r : ScrapedRow) (u : UploadedRow) : UploadedRow :=
  match upload_product api (rowArgs r) with
  | (true, pid, _) => { u with productId := pid, uploadStatus := "Active" }
  | (false, _, err) => { u with uploadStatus := "Failed: " ++ pyFmt err }

/-- The upload loop from row index `i` on.  `apis` gives the platform's
behaviour for each row's `upload_product` call (the remote state may
differ from call to call). -/
def phase2Go (apis : Nat → ShopifyAPI) (i : Nat) : List ScrapedRow → List UploadedRow
  | [] => []
  | r :: rest => uploadStep (apis i) r (initUploadRow r) :: phase2Go apis (i + 1) rest

/-- Phase 2: initialise the `Product ID` / `Upload Status` columns, then
run the upload loop over every row in order. -/
def phase2 (apis : Nat → ShopifyAPI) (ds : List ScrapedRow) : List UploadedRow :=
  phase2Go apis 0 ds

/-! ## CSV round-trip model

`df.to_csv(...)` followed by `pd.read_csv(...)` with default settings.
`to_csv` writes a missing value (NaN/None) as an empty field and other
values as their text, with minimal quoting.  `read_csv` turns the empty
field and every string of its default NA list (`"NA"`, `"N/A"`,
`"NaN"`, `"None"`, `"null"`, …) back into missing, and its dtype
inference re-types fields that parse as decimal numerals, booleans or
infinities; every other string field is read back verbatim.  pandas
applies the re-typing per column — when every entry of a column parses —
so the per-cell model below conservatively marks every such cell as
changed; the cells whose preservation the round-trip claim is about are
exactly the untouched ones. -/

/-- One dataframe cell: a string value, a numeric value, a boolean or
an infinity (the latter two only ever arise from re-importing), or
missing. -/
inductive Cell where
  | str (s : String)
  | num (q : ℚ)
  | boolVal (b : Bool)
  | infVal (neg : Bool)
  | nan
deriving DecidableEq

/-- An optional string column value as a cell. -/
def optStrCell : Option String → Cell
  | some s => .str s
  | none => .nan

/-- An optional numeric column value as a cell. -/
def optNumCell : Option ℚ → Cell
  | some q => .num q
  | none => .nan

/-- The ten cells of a post-scrape row, in column order: GTIN, Name,
Brand, Category, € Price inc. shipping, Inventory, Link, Description,
Image_URL, Selling Price. -/
def rowCells (r : ScrapedRow) : List Cell :=
  [.str r.input.gtin, .str r.input.name, .str r.input.brand, .str r.input.category,
    optNumCell r.input.cost, optNumCell (r.input.inventory.map (fun n => (n : ℚ))),
    optStrCell r.link, optStrCell r.description, optStrCell r.imageURL,
    optNumCell r.sellingPrice]

/-- The cells of a post-scrape table. -/
def tableCells (t : List ScrapedRow) : List (List Cell) :=
  t.map rowCells

/-- The strings `read_csv` treats as missing by default (its
`STR_NA_VALUES` set), the empty field included. -/
def pandasNAValues : List String :=
  ["", "#N/A", "#N/A N/A", "#NA", "-1.#IND", "-1.#QNAN", "-NaN", "-nan",
    "1.#IND", "1.#QNAN", "<NA>", "N/A", "NA", "NULL", "NaN", "None",
    "n/a", "nan", "null"]

/-- The numeric value of a digit list (most significant digit first). -/
def digitsVal (cs : List Char) : Nat :=
  cs.foldl (fun a c => a * 10 + (c.toNat - 48)) 0

/-- Parse an optional `[eE][+-]?digits` exponent suffix closing a
numeral: `some e` on success (`0` when there is no suffix), `none` when
the remaining characters are not a well-formed suffix. -/
def parseExp : List Char → Option Int
  | [] => some 0
  | c :: cs =>
    if c = 'e' ∨ c = 'E' then
      let (sgn, ds) :=
        match cs with
        | '+' :: rest => ((1 : Int), rest)
        | '-' :: rest => ((-1 : Int), rest)
        | rest => ((1 : Int), rest)
      if ds = [] then none
      else if ds.all Char.isDigit then some (sgn * (digitsVal ds : Int))
      else none
    else none

/-- Parse a decimal numeral the way the pandas reader recognises one
(surrounding whitespace tolerated): optional sign, digits with at most
one decimal point and at least one digit, optional exponent; returns
its rational value. -/
def parseDec (s : String) : Option ℚ :=
  let cs0 := stripChars s.data
  let (sgn, cs) :=
    match cs0 with
    | '+' :: rest => ((1 : Int), rest)
    | '-' :: rest => ((-1 : Int), rest)
    | rest => ((1 : Int), rest)
  let intPart := cs.takeWhile Char.isDigit
  let cs1 := cs.drop intPart.length
  let (fracPart, cs2) :=
    match cs1 with
    | '.' :: rest =>
      let fp := rest.takeWhile Char.isDigit
      (fp, rest.drop fp.length)
    | _ => (([] : List Char), cs1)
  if intPart = [] ∧ fracPart = [] then none
  else
    match parseExp cs2 with
    | none => none
    | some e =>
      let n : Int :=
        sgn * ((digitsVal intPart * 10 ^ fracPart.length + digitsVal fracPart : Nat) : Int)
      let d : Nat := 10 ^ fracPart.length
      if 0 ≤ e then some (mkRat (n * 10 ^ e.toNat) d)
      else some (mkRat n (d * 10 ^ (-e).toNat))

/-- Boolean literals the pandas reader converts to booleans (surrounding
whitespace tolerated; case variants conservatively overapproximated). -/
def parseBool (s : String) : Option Bool :=
  let t := String.mk (stripChars s.data)
  if ["TRUE", "True", "true"].contains t then some true
  else if ["FALSE", "False", "false"].contains t then some false
  else none

/-- Infinity literals the pandas reader converts to a float infinity
(case-insensitively; surrounding whitespace tolerated); returns `true`
for a negative infinity. -/
def parseInf (s : String) : Option Bool :=
  let t := String.mk ((stripChars s.data).map Char.toLower)
  if ["inf", "+inf", "infinity", "+infinity"].contains t then some false
  else if ["-inf", "-infinity"].contains t then some true
  else none

/-- Whether `read_csv` reads a string field back verbatim: it is none
of the default NA strings and dtype inference does not re-type it (it
is not a decimal numeral, boolean or infinity literal). -/
def strPreserved (s : String) : Bool :=
  !(pandasNAValues.contains s) && (parseDec s).isNone
    && (parseBool s).isNone && (parseInf s).isNone

/-- Whether a cell of the exported table is read back unchanged:
missing and numeric cells are; a string cell is when `read_csv` neither
treats it as NA nor re-types it. -/
def cellPreserved : Cell → Bool
  | .str s => strPreserved s
  | _ => true

/-- The effect of `to_csv` then `read_csv` on a single cell: a missing
value is written as an empty field and read back as NaN; a numeric
value is read back as that number; a string cell that is one of pandas'
default NA strings (the empty string included) is read back as NaN, a
decimal numeral is re-typed to its number, a boolean or infinity
literal to the corresponding non-string value, and every other string
is read back verbatim. -/
def roundtripCell : Cell → Cell
  | .nan => .nan
  | .num q => .num q
  | .boolVal b => .boolVal b
  | .infVal b => .infVal b
  | .str s =>
    if pandasNAValues.contains s then .nan
    else
      match parseDec s with
      | some q => .num q
      | none =>
        match parseBool s with
        | some b => .boolVal b
        | none =>
          match parseInf s with
          | some b => .infVal b
          | none => .str s

/-- Export the post-scrape table to CSV and re-import it, as a table of
cells. -/
def roundtripTable (t : List ScrapedRow) : List (List Cell) :=
  (tableCells t).map (fun row => row.map roundtripCell)

/-! ## Concrete instances used in counterexamples and witnesses -/

/-- A search oracle that finds a product link for the keyword `"123"`
and no suggestions container for any other keyword. -/
def sfStrip : String → Except String SearchPage := fun g =>
  if g = "123" then
    .ok { suggestContainer :=
            some { linkElem := some { href := some "https://example.com/p" } } }
  else
    .ok { suggestContainer := none }

/-- A detail oracle returning a page with description text `"D1"` and
image source `"I1"` for every url. -/
def dfFull : String → Except String DetailPage := fun _ =>
  .ok { descriptionContainer := some "D1"
        imageContainer := some { img := some { src := some "I1" } } }

/-- A detail oracle returning a page with no description container and
no image container for every url. -/
def dfEmpty : String → Except String DetailPage := fun _ =>
  .ok { descriptionContainer := none, imageContainer := none }

/-- A search oracle that always finds the same product link. -/
def sfAlways : String → Except String SearchPage := fun _ =>
  .ok { suggestContainer :=
          some { linkElem := some { href := some "https://example.com/q" } } }

/-- An input row whose gtin carries a trailing space. -/
def rowSpace : InputRow :=
  { gtin := "123 ", name := "N", brand := "B", category := "C"
    cost := none, inventory := none }

/-- A plain input row (its gtin is not a numeral, so its text survives
a CSV round-trip). -/
def rowPlain : InputRow :=
  { gtin := "X1", name := "N", brand := "B", category := "C"
    cost := some 10, inventory := some 5 }

/-- The post-scrape table of `rowPlain` under `sfAlways`/`dfEmpty`: its
description is the empty string. -/
def tEmptyDesc : List ScrapedRow :=
  phase1Table sfAlways sfAlways dfEmpty [rowPlain]

/-- A platform oracle that rejects every product save with the
validation message `"title required"`. -/
def apiReject : ShopifyAPI :=
  { save := fun _ => .rejected "title required"
    locations := .found [1]
    setInventory := fun _ _ _ => .ok }

/-- A platform oracle that raises `"boom"` on every product save. -/
def apiRaise : ShopifyAPI :=
  { save := fun _ => .raised "boom"
    locations := .found [1]
    setInventory := fun _ _ _ => .ok }

/-- A platform oracle that accepts every save (product id 7, inventory
item id 11) but has no fulfillment locations configured. -/
def apiNoLoc : ShopifyAPI :=
  { save := fun _ => .accepted 7 11
    locations := .found []
    setInventory := fun _ _ _ => .ok }

/-- A platform oracle on which every upload succeeds. -/
def apiOk : ShopifyAPI :=
  { save := fun _ => .accepted 7 11
    locations := .found [1]
    setInventory := fun _ _ _ => .ok }

/-- A scraped row with no image reference. -/
def rowNoImage : ScrapedRow :=
  { input := rowPlain, link := some "https://example.com/q"
    description := some "D1", imageURL := none, sellingPrice := some 14 }

/-- A column list missing four of the required columns. -/
def colsMissing : List String := ["GTIN", "Name"]

/-- The full required column list, as uploaded. -/
def colsFull : List String := required_cols

/-- A post-scrape table all of whose cells are read back verbatim by a
CSV round-trip: the lookup finds nothing for gtin `"X1"`, so the
derived text columns are absent rather than empty, and no text cell is
an NA string, numeral, boolean or infinity literal. -/
def tNoEmpty : List ScrapedRow := phase1Table sfStrip sfStrip dfFull [rowPlain]

/-! ## Helper lemmas -/

/-- The upload loop preserves the number of rows. -/
lemma phase2Go_length (apis : Nat → ShopifyAPI) :
    ∀ (ds : List ScrapedRow) (i : Nat), (phase2Go apis i ds).length = ds.length := by
  intro ds
  induction ds with
  | nil => intro i; rfl
  | cons r rest ih => intro i; simp [phase2Go, ih]

/-- Row `j` of the upload loop started at index `i` is row `j` of the
input processed with the platform behaviour at index `i + j`. -/
lemma phase2Go_getElem (apis : Nat → ShopifyAPI) :
    ∀ (ds : List ScrapedRow) (i j : Nat),
      (phase2Go apis i ds)[j]? =
        (ds[j]?).map (fun r => uploadStep (apis (i + j)) r (initUploadRow r)) := by
  intro ds
  induction ds with
  | nil => intro i j; simp [phase2Go]
  | cons r rest ih =>
    intro i j
    cases j with
    | zero => simp [phase2Go]
    | succ j =>
      have harith : i + 1 + j = i + (j + 1) := by omega
      simp [phase2Go, ih (i + 1) j, harith]

/-- Row `j` of Phase 2 is row `j` of the post-scrape table processed
with the platform behaviour at index `j`. -/
lemma phase2_getElem (apis : Nat → ShopifyAPI) (ds : List ScrapedRow) (j : Nat) :
    (phase2 apis ds)[j]? =
      (ds[j]?).map (fun r => uploadStep (apis j) r (initUploadRow r)) := by
  have h := phase2Go_getElem apis ds 0 j
  simpa [phase2] using h

/-! ## Claims -/

/-- C1: for every row of the dataset, after Phase 1 the row's selling
price equals its sourced cost (the "€ Price inc. shipping" value)
multiplied by the fixed constant 1.40 exactly (a missing cost
propagating to a missing price), and the price column is computed for
every row, for arbitrary behaviour of the lookup and scrape oracles —
in particular independently of any row's scrape outcome. -/
theorem sellingPrice_eq_cost_markup
    (sf1 sf2 : String → Except String SearchPage)
    (dfetch : String → Except String DetailPage) (rows : List InputRow) :
    (phase1Table sf1 sf2 dfetch rows).map (fun r => r.sellingPrice)
      = rows.map (fun r => r.cost.map (fun c => c * markup)) := by
  simp [phase1Table, phase1RowOut]

/-- C2: for every row, if `fetch_product_link` returns absent for the
row's (stripped) identifier, then the row's description and image fields
are set to absent and `fetch_product_details` is not invoked for that
row — the row's scrape-loop trace is exactly the one lookup call. -/
theorem lookup_absent_no_scrape
    (sf1 sf2 : String → Except String SearchPage)
    (dfetch : String → Except String DetailPage) (r : InputRow)
    (h : fetch_product_link sf1 (pyStrip r.gtin) = none) :
    (phase1RowOut sf1 sf2 dfetch r).description = none ∧
    (phase1RowOut sf1 sf2 dfetch r).imageURL = none ∧
    (scrapeLoopStep sf1 dfetch r).2 = [ScrapeCall.lookup (pyStrip r.gtin)] := by
  refine ⟨?_, ?_, ?_⟩ <;>
    simp [phase1RowOut, scrapeLoopStep, scrapeIfLink, detailCalls, h]

/-- Witness for C2 at a concrete row and oracles: the search oracle has
no suggestions for gtin `"9"`, so the scraped fields are absent and no
detail fetch happens. -/
theorem lookup_absent_no_scrape_witness :
    (phase1RowOut sfStrip sfStrip dfFull rowPlain).description = none ∧
    (phase1RowOut sfStrip sfStrip dfFull rowPlain).imageURL = none ∧
    (scrapeLoopStep sfStrip dfFull rowPlain).2
      = [ScrapeCall.lookup (pyStrip rowPlain.gtin)] :=
  lookup_absent_no_scrape sfStrip sfStrip dfFull rowPlain (by decide)

/-- C6: if the detail page is fetched successfully but lacks the
description container, `fetch_product_details` returns the empty string
(not absent) for the description; and the image reference is absent when
the image container is missing or its nested image element is missing. -/
theorem details_missing_containers
    (dfetch : String → Except String DetailPage) (url : String) (page : DetailPage)
    (hfetch : dfetch url = .ok page) :
    (page.descriptionContainer = none →
      (fetch_product_details dfetch url).1 = some "") ∧
    (page.imageContainer = none →
      (fetch_product_details dfetch url).2 = none) ∧
    (∀ c, page.imageContainer = some c → c.img = none →
      (fetch_product_details dfetch url).2 = none) := by
  refine ⟨fun hd => ?_, fun hi => ?_, fun c hc himg => ?_⟩
  · simp [fetch_product_details, hfetch, hd]
  · simp [fetch_product_details, hfetch, hi]
  · simp [fetch_product_details, hfetch, hc, himg]

/-- Witness for C6: a page with neither container yields description
`some ""` and image `none`. -/
theorem details_missing_containers_witness :
    (fetch_product_details dfEmpty "u").1 = some "" ∧
    (fetch_product_details dfEmpty "u").2 = none := by
  have h := details_missing_containers dfEmpty "u"
    { descriptionContainer := none, imageContainer := none } rfl
  exact ⟨h.1 rfl, h.2.1 rfl⟩

/-- C3: when the platform rejects product creation for a row,
`upload_product` returns failure carrying the platform's validation
messages and no product id; the orchestrator records that row's upload
status as exactly `"Failed: "` followed by the error, leaves the row's
product id absent, and rows at every other index are unaffected by that
row's platform behaviour. -/
theorem upload_rejected_row_status
    (apis apis' : Nat → ShopifyAPI) (ds : List ScrapedRow)
    (i : Nat) (r : ScrapedRow) (errs : String)
    (hrow : ds[i]? = some r)
    (hrej : (apis i).save (uploadPayload (rowArgs r)) = .rejected errs) :
    upload_product (apis i) (rowArgs r) = (false, none, some errs) ∧
    (∃ u, (phase2 apis ds)[i]? = some u ∧
      u.uploadStatus = "Failed: " ++ errs ∧ u.productId = none) ∧
    ((∀ j, j ≠ i → apis' j = apis j) →
      ∀ j, j ≠ i → (phase2 apis' ds)[j]? = (phase2 apis ds)[j]?) := by
  have hup : upload_product (apis i) (rowArgs r) = (false, none, some errs) := by
    simp [upload_product, upload_product_run, hrej]
  refine ⟨hup, ⟨uploadStep (apis i) r (initUploadRow r), ?_, ?_, ?_⟩, ?_⟩
  · rw [phase2_getElem, hrow]; rfl
  · simp [uploadStep, hup, pyFmt, initUploadRow]
  · simp [uploadStep, hup, initUploadRow]
  · intro hagree j hj
    rw [phase2_getElem, phase2_getElem, hagree j hj]

/-- Witness for C3: a platform rejecting every save with
`"title required"` marks row 2 (index 1) of a three-row dataset as
`Failed: title required` with an absent product id. -/
theorem upload_rejected_row_status_witness :
    ∃ u, (phase2 (fun _ => apiReject) [rowNoImage, rowNoImage, rowNoImage])[1]? = some u ∧
      u.uploadStatus = "Failed: " ++ "title required" ∧ u.productId = none :=
  (upload_rejected_row_status (fun _ => apiReject) (fun _ => apiReject)
    [rowNoImage, rowNoImage, rowNoImage] 1 rowNoImage "title required" rfl rfl).2.1

/-- C4: if the product is persisted successfully but the
fulfillment-location lookup returns no locations, `upload_product`
returns failure with the fixed message `"No locations found for
inventory."` and no product id, even though the remote product was
already created (the save call is in the trace), and no compensating
deletion occurs. -/
theorem no_locations_failure_after_create
    (api : ShopifyAPI) (a : UploadArgs) (pid iid : Nat)
    (hsave : api.save (uploadPayload a) = .accepted pid iid)
    (hloc : api.locations = .found []) :
    upload_product api a = (false, none, some "No locations found for inventory.") ∧
    (upload_product_run api a).2
      = [.saveProduct (uploadPayload a), .findLocations] ∧
    (∀ p, APICall.deleteProduct p ∉ (upload_product_run api a).2) := by
  refine ⟨?_, ?_, ?_⟩ <;> simp [upload_product, upload_product_run, hsave, hloc]

/-- Witness for C4: a platform accepting the save but with no configured
locations yields the fixed failure message. -/
theorem no_locations_failure_after_create_witness :
    upload_product apiNoLoc (rowArgs rowNoImage)
      = (false, none, some "No locations found for inventory.") :=
  (no_locations_failure_after_create apiNoLoc (rowArgs rowNoImage) 7 11 rfl rfl).1

/-- C5: `upload_product` never raises — an exception at any stage of the
save / location-lookup / inventory-set sequence is caught and returned
as the failure triple `(false, none, the exception's message)` — and no
rollback of an already-created remote product is issued (no delete call
ever appears in the trace, on any path). -/
theorem upload_product_catches_all (api : ShopifyAPI) (a : UploadArgs) :
    (∀ p, APICall.deleteProduct p ∉ (upload_product_run api a).2) ∧
    (∀ msg, api.save (uploadPayload a) = .raised msg →
      upload_product api a = (false, none, some msg)) ∧
    (∀ pid iid msg, api.save (uploadPayload a) = .accepted pid iid →
      api.locations = .raised msg →
      upload_product api a = (false, none, some msg)) ∧
    (∀ pid iid loc locs msg, api.save (uploadPayload a) = .accepted pid iid →
      api.locations = .found (loc :: locs) →
      api.setInventory loc iid a.inventory = .raised msg →
      upload_product api a = (false, none, some msg)) := by
  refine ⟨?_, ?_, ?_, ?_⟩
  · intro p
    simp only [upload_product_run]
    cases hs : api.save (uploadPayload a) with
    | raised msg => simp
    | rejected errs => simp
    | accepted pid iid =>
      cases hl : api.locations with
      | raised msg => simp
      | found locs =>
        cases locs with
        | nil => simp
        | cons loc rest =>
          cases hinv : api.setInventory loc iid a.inventory with
          | raised msg => simp [hinv]
          | ok => simp [hinv]
  · intro msg hs
    simp [upload_product, upload_product_run, hs]
  · intro pid iid msg hs hl
    simp [upload_product, upload_product_run, hs, hl]
  · intro pid iid loc locs msg hs hl hinv
    simp [upload_product, upload_product_run, hs, hl, hinv]

/-- Witness for C5: a platform whose save raises `"boom"` makes
`upload_product` return the caught failure triple. -/
theorem upload_product_catches_all_witness :
    upload_product apiRaise (rowArgs rowNoImage) = (false, none, some "boom") :=
  (upload_product_catches_all apiRaise (rowArgs rowNoImage)).2.1 "boom" rfl

/-- C7: if the input file is missing any required column, processing
aborts with an error listing the missing columns and no row is processed
(no network call is issued); otherwise every row is processed — for
arbitrary oracle behaviour the post-scrape table has one row per input
row, so no per-row failure is fatal to the run. -/
theorem missing_columns_abort
    (sf1 sf2 : String → Except String SearchPage)
    (dfetch : String → Except String DetailPage)
    (columns : List String) (rows : List InputRow) :
    (missing_cols columns ≠ [] →
      process_file sf1 sf2 dfetch columns rows
        = (.aborted (missing_cols columns), [])) ∧
    (missing_cols columns = [] →
      process_file sf1 sf2 dfetch columns rows
        = (.processed (phase1Table sf1 sf2 dfetch rows),
            phase1Trace sf1 dfetch rows) ∧
      (phase1Table sf1 sf2 dfetch rows).length = rows.length) := by
  constructor
  · intro h; simp [process_file, h]
  · intro h
    exact ⟨by simp [process_file, h], by simp [phase1Table]⟩

/-- Witness for C7: missing columns abort with the listed columns and an
empty call trace; the full column set processes the single row. -/
theorem missing_columns_abort_witness :
    process_file sfAlways sfAlways dfEmpty colsMissing [rowPlain]
      = (.aborted (missing_cols colsMissing), []) ∧
    process_file sfAlways sfAlways dfEmpty colsFull [rowPlain]
      = (.processed (phase1Table sfAlways sfAlways dfEmpty [rowPlain]),
          phase1Trace sfAlways dfEmpty [rowPlain]) :=
  ⟨(missing_columns_abort sfAlways sfAlways dfEmpty colsMissing [rowPlain]).1
      (by decide),
    ((missing_columns_abort sfAlways sfAlways dfEmpty colsFull [rowPlain]).2
      (by decide)).1⟩

/-- C10: Phase 2 coerces a missing image reference to the empty string,
the payload `upload_product` builds attaches an image if and only if the
given image reference is non-empty, and for a row whose scrape produced
no image the product save is still issued (first call of the trace) with
an image-free payload — the row is uploaded rather than failing or
attaching an empty reference. -/
theorem missing_image_uploads_without_image
    (api : ShopifyAPI) (r : ScrapedRow) (h : r.imageURL = none) :
    (rowArgs r).image_url = "" ∧
    (uploadPayload (rowArgs r)).imageSrc = none ∧
    (∀ a : UploadArgs, (uploadPayload a).imageSrc = none ↔ a.image_url = "") ∧
    (upload_product_run api (rowArgs r)).2.head?
      = some (.saveProduct (uploadPayload (rowArgs r))) := by
  refine ⟨by simp [rowArgs, h], by simp [uploadPayload, rowArgs, h], ?_, ?_⟩
  · intro a
    by_cases ha : a.image_url = "" <;> simp [uploadPayload, ha]
  · simp only [upload_product_run]
    cases hs : api.save (uploadPayload (rowArgs r)) with
    | raised msg => simp
    | rejected errs => simp
    | accepted pid iid =>
      cases hl : api.locations with
      | raised msg => simp
      | found locs =>
        cases locs with
        | nil => simp
        | cons loc rest =>
          cases hinv : api.setInventory loc iid (rowArgs r).inventory with
          | raised msg => simp [hinv]
          | ok => simp [hinv]

/-- Witness for C10: the payload for `rowNoImage` carries no image. -/
theorem missing_image_uploads_without_image_witness :
    (uploadPayload (rowArgs rowNoImage)).imageSrc = none :=
  (missing_image_uploads_without_image apiOk rowNoImage rfl).2.1

/-- The detail-fetch calls of a row contain no lookup call. -/
lemma filter_lookup_detailCalls (link : Option String) :
    (detailCalls link).filter isLookupCall = [] := by
  cases link with
  | none => rfl
  | some l => by_cases h : l = "" <;> simp [detailCalls, h, isLookupCall]

/-- The lookup calls of one scrape-loop iteration: exactly one, on the
stripped gtin. -/
lemma filter_lookup_scrapeLoopStep (sf : String → Except String SearchPage)
    (dfetch : String → Except String DetailPage) (r : InputRow) :
    ((scrapeLoopStep sf dfetch r).2).filter isLookupCall
      = [ScrapeCall.lookup (pyStrip r.gtin)] := by
  simp [scrapeLoopStep, isLookupCall, filter_lookup_detailCalls]

/-- C8 counterexample: a post-scrape table of a row whose detail page
had no description container carries the empty string as its
description; exporting writes it as an empty field, which re-imports as
missing, so the re-imported table differs from the exported one —
refuting the claim that the round-trip preserves every value of every
post-scrape dataset. -/
theorem csv_roundtrip_counterexample :
    roundtripTable tEmptyDesc ≠ tableCells tEmptyDesc := by decide

/-- C8 amended: exporting the post-scrape table to CSV and re-importing
it preserves every original and derived column value provided every
text cell of the exported table is one `read_csv` reads back verbatim —
not empty, not one of pandas' default NA strings (`"None"`, `"NaN"`,
`"NA"`, `"null"`, …), and not a decimal numeral, boolean or infinity
literal that dtype inference re-types.  An excluded cell is read back
as missing or as a non-string value instead. -/
theorem csv_roundtrip_verbatim_cells
    (t : List ScrapedRow)
    (h : ∀ row ∈ tableCells t, ∀ c ∈ row, cellPreserved c = true) :
    roundtripTable t = tableCells t := by
  have hrow : ∀ row ∈ tableCells t, row.map roundtripCell = row := by
    intro row hr
    have hc : ∀ c ∈ row, roundtripCell c = c := by
      intro c hcm
      have hp := h row hr c hcm
      cases c with
      | nan => rfl
      | num q => rfl
      | boolVal b => rfl
      | infVal b => rfl
      | str s =>
        simp only [cellPreserved, strPreserved, Bool.and_eq_true,
          Bool.not_eq_true', Option.isNone_iff_eq_none] at hp
        obtain ⟨⟨⟨h1, h2⟩, h3⟩, h4⟩ := hp
        have h1m : s ∉ pandasNAValues := by simpa using h1
        simp [roundtripCell, h1m, h2, h3, h4]
    calc row.map roundtripCell = row.map id := List.map_congr_left hc
      _ = row := List.map_id row
  unfold roundtripTable
  calc (tableCells t).map (fun row => row.map roundtripCell)
      = (tableCells t).map id := List.map_congr_left hrow
    _ = tableCells t := List.map_id _

/-- Witness for the amended C8: a post-scrape table all of whose cells
read back verbatim round-trips unchanged. -/
theorem csv_roundtrip_verbatim_cells_witness :
    roundtripTable tNoEmpty = tableCells tNoEmpty :=
  csv_roundtrip_verbatim_cells tNoEmpty (by decide)

/-- C9 counterexample: with a deterministic lookup oracle and a row
whose gtin carries a trailing space, collapsing the two lookup calls of
Phase 1 into a single memoized call per row changes the post-scrape
table: the scraping loop looks up the STRIPPED gtin `"123"` (match
found, page scraped) while the `Link` column looks up the RAW gtin
`"123 "` (no match), so the original table has an absent link where the
memoized one has the found link. -/
theorem memoized_lookup_counterexample :
    phase1Table sfStrip sfStrip dfFull [rowSpace]
      ≠ phase1Memo sfStrip dfFull [rowSpace] := by decide

/-- C9 amended: Catalog Lookup is invoked exactly twice per row — once
on the stripped gtin to decide whether to scrape, once on the raw gtin
to fill the `Link` column — and, provided additionally that every row's
identifier equals its whitespace-stripped form, collapsing the two
invocations into a single memoized call per row yields the same
post-scrape table (the lookup oracle being a deterministic function of
the identifier). -/
theorem memoized_lookup_equiv
    (sf : String → Except String SearchPage)
    (dfetch : String → Except String DetailPage) (rows : List InputRow)
    (hstrip : ∀ r ∈ rows, pyStrip r.gtin = r.gtin) :
    (phase1Trace sf dfetch rows).filter isLookupCall
      = rows.map (fun r => ScrapeCall.lookup (pyStrip r.gtin))
        ++ rows.map (fun r => ScrapeCall.lookup r.gtin) ∧
    phase1Table sf sf dfetch rows = phase1Memo sf dfetch rows := by
  constructor
  · have h1 : ∀ rs : List InputRow,
        ((rs.map (fun r => (scrapeLoopStep sf dfetch r).2)).flatten).filter
            isLookupCall
          = rs.map (fun r => ScrapeCall.lookup (pyStrip r.gtin)) := by
      intro rs
      induction rs with
      | nil => rfl
      | cons r rest ih =>
        simp [List.filter_append, filter_lookup_scrapeLoopStep, ih]
    have h2 : ∀ rs : List InputRow,
        (rs.map (fun r => ScrapeCall.lookup r.gtin)).filter isLookupCall
          = rs.map (fun r => ScrapeCall.lookup r.gtin) := by
      intro rs
      induction rs with
      | nil => rfl
      | cons r rest ih => simp [isLookupCall, ih]
    simp [phase1Trace, List.filter_append, h1, h2]
  · unfold phase1Table phase1Memo
    refine List.map_congr_left (fun r hr => ?_)
    simp [phase1RowOut, phase1MemoRowOut, hstrip r hr]

/-- Witness for the amended C9: on a row whose gtin has no surrounding
whitespace the original and the memoized Phase 1 agree. -/
theorem memoized_lookup_equiv_witness :
    phase1Table sfStrip sfStrip dfFull [rowPlain]
      = phase1Memo sfStrip dfFull [rowPlain] :=
  (memoized_lookup_equiv sfStrip dfFull [rowPlain] (by decide)).2
